import Mathlib

/-!
Verification of the multilingual garbage-text heuristic scorer
(`walrus-app/backend/agents/NLP_sanity_Checker.py`) and of the
post-processing layer of the LLM-backed document-coherency stage
(`walrus-app/backend/agents/document_coherence.py`).

Python strings are embedded as `List Char` (named `Str` below), so that
every string operation used by the code (strip, isalpha, lower, len,
membership) is a structurally recursive Lean function the kernel can
evaluate.  Python floats are idealised as exact rationals `ℚ`; Python's
`round(x, 2)` is embedded as round-half-to-even on `x * 100` followed by
division by `100`.  The external libraries (`langdetect`, `nltk`,
`jieba`, `fugashi`, `konlpy`) are black boxes: they enter the model as
fields of an environment record `Env`, and each theorem quantifies over
the environment (or states explicitly which parts of it it depends on).
A Python function that can raise is embedded with `Option`/`Except`.
-/

/-- Python strings, embedded as lists of characters. -/
abbrev Str := List Char

/-- Embedding of Python `str.strip()`: drop whitespace from both ends. -/
def pyStrip (s : Str) : Str :=
  ((s.dropWhile Char.isWhitespace).reverse.dropWhile Char.isWhitespace).reverse

/-- Embedding of Python `str.isalpha()`: nonempty and every character
alphabetic (`"".isalpha()` is `False` in Python). -/
def pyIsAlphaStr (s : Str) : Bool :=
  !s.isEmpty && s.all Char.isAlpha

/-- Embedding of Python `str.lower()`. -/
def pyLower (s : Str) : Str := s.map Char.toLower

/-- Embedding of Python `str.startswith(p)`. -/
def strStartsWith : Str → Str → Bool
  | _, [] => true
  | [], _ :: _ => false
  | c :: s, d :: p => c = d && strStartsWith s p

/-- Round-half-to-even to the nearest integer, the tie-breaking rule of
Python's built-in `round`. -/
def roundHalfEven (q : ℚ) : ℤ :=
  if q - (⌊q⌋ : ℚ) < 1/2 then ⌊q⌋
  else if 1/2 < q - (⌊q⌋ : ℚ) then ⌊q⌋ + 1
  else if ⌊q⌋ % 2 = 0 then ⌊q⌋ else ⌊q⌋ + 1

/-- Embedding of Python `round(x, 2)` (on the ideal rational value). -/
def pyRound2 (q : ℚ) : ℚ := (roundHalfEven (q * 100) : ℚ) / 100

/-- Environment of external black-box libraries used by
`NLP_sanity_Checker.py`: the three CJK tokenizers, NLTK's
`word_tokenize`, `langdetect.detect` (where `none` models both a `None`
result and a raised `LangDetectException`, absorbed by the bare
`except:` in `sanity_check`), and the loaded `STOPWORDS` table (either
the parsed `stopwords.json` or the built-in fallback dictionary). -/
structure Env where
  jieba_cut : Str → List Str
  fugashi_tagger : Str → List Str
  okt_morphs : Str → List Str
  word_tokenize : Str → List Str
  detect : Str → Option Str
  STOPWORDS : List (Str × List Str)

/-- Embedding of `tokenize_text(text, lang)`: dispatch on the
language-code prefix to the external tokenizers. -/
def tokenize_text (E : Env) (text lang : Str) : List Str :=
  if strStartsWith lang "zh".data then E.jieba_cut text
  else if strStartsWith lang "ja".data then E.fugashi_tagger text
  else if strStartsWith lang "ko".data then E.okt_morphs text
  else E.word_tokenize text

/-- The statistics record produced by `compute_stats` (the Python dict
with keys `language`, `words`, `stopword_ratio`, `avg_word_len`,
`alpha_ratio`); `stopword_ratio` is `None`-able. -/
structure DocumentStats where
  language : Str
  words : ℕ
  stopword_ratio : Option ℚ
  avg_word_len : ℚ
  alpha_ratio : ℚ
deriving DecidableEq, Repr

/-- Embedding of `compute_stats(text, lang)`. -/
def compute_stats (E : Env) (text lang : Str) : DocumentStats :=
  let tokens := tokenize_text E text lang
  let words := tokens.filter (fun t => pyIsAlphaStr t)
  let num_words := words.length
  let avg_word_len : ℚ :=
    if 0 < num_words then ((words.map List.length).sum : ℚ) / (num_words : ℚ) else 0
  let alpha_ratio : ℚ :=
    ((text.filter Char.isAlpha).length : ℚ) / (max text.length 1 : ℚ)
  let stopword_ratio : Option ℚ :=
    match E.STOPWORDS.lookup lang with
    | some sws =>
        if 0 < num_words then
          some (((words.filter (fun w => sws.contains (pyLower w))).length : ℚ) / (num_words : ℚ))
        else none
    | none => none
  { language := lang
    words := num_words
    stopword_ratio := stopword_ratio
    avg_word_len := pyRound2 avg_word_len
    alpha_ratio := pyRound2 alpha_ratio }

/-- Embedding of `is_garbage(text, stats)`: the ordered rule chain.
Rule 3 only decides when the ratio is defined and below `0.05`;
otherwise control falls through to rule 4. -/
def is_garbage (text : Str) (stats : DocumentStats) : Bool :=
  if (pyStrip text).length < 5 then true
  else if stats.words < 3 ∧ (7:ℚ)/10 < stats.alpha_ratio then false
  else if (match stats.stopword_ratio with
           | some r => decide (r < (5:ℚ)/100)
           | none => false) then true
  else if stats.alpha_ratio < (1:ℚ)/2 then true
  else false

/-- The `stats` payload of a `sanity_check` result: either the bare
`{"language": None}` dict of the detection-failure path, or a full
`DocumentStats` dict. -/
inductive SanityStats where
  | langFail : SanityStats
  | full : DocumentStats → SanityStats
deriving DecidableEq, Repr

/-- The `language` key of a `sanity_check` stats payload (`none` on the
detection-failure path). -/
def SanityStats.language : SanityStats → Option Str
  | .langFail => none
  | .full s => some s.language

/-- The value returned by `sanity_check`. -/
structure Verdict where
  garbage : Bool
  stats : SanityStats
deriving DecidableEq, Repr

/-- Embedding of `sanity_check(text)`.  `E.detect text = none` models
both `detect` returning `None` and `detect` raising (the bare `except:`
maps a raise to `lang = None`); the `isEmpty` test models the extra
falsiness of `""` under Python's `if not lang:`. -/
def sanity_check (E : Env) (text : Str) : Verdict :=
  match E.detect text with
  | none => { garbage := true, stats := .langFail }
  | some lang =>
      if lang.isEmpty then { garbage := true, stats := .langFail }
      else
        let stats := compute_stats E text lang
        { garbage := is_garbage text stats, stats := .full stats }

/-!
Model of `DocAnalyst.verify_document` (document_coherence.py).  The JSON
object parsed from the model's reply is embedded as a record of three
optional fields (a missing field models a JSON object lacking that key);
`none` at the outer `Option` models `_send_llm_request` returning `None`
(API error, empty content, or undecodable JSON).  The Python function can
raise `KeyError` at `result["reason"] += ...`, so the embedding returns
`Except Str VerifyResult`, `Except.error` marking an uncaught exception.
The input document is `Option Str`: `none` models `None` or a non-string
value (`not isinstance(document_text, str)`).
-/

/-- A parsed LLM reply: the JSON keys `is_garbage`, `reason`,
`confidence`, each possibly absent. -/
structure LLMReply where
  is_garbage : Option Bool
  reason : Option Str
  confidence : Option ℤ
deriving DecidableEq, Repr

/-- The dict returned by `verify_document`: the reply dict with the
added key `passed_verification` (`reason` may be absent when the reply
lacked it and the confidence cleared the threshold). -/
structure VerifyResult where
  is_garbage : Bool
  reason : Option Str
  confidence : ℤ
  passed_verification : Bool
deriving DecidableEq, Repr

/-- Reason string of the input gate of `verify_document`. -/
def shortInputReason : Str := "Input is empty or too short to be a valid document.".data

/-- Reason string of the malformed-response branch of `verify_document`. -/
def invalidRespReason : Str := "Failed to get a valid response from the verification model.".data

/-- Suffix appended to the reason on a low-confidence rejection. -/
def lowConfSuffix : Str := " (Rejected due to low confidence score.)".data

/-- Embedding of `DocAnalyst.verify_document(document_text,
confidence_threshold)`, with the reply the LLM request would produce
passed in as `llm_response` (the request is only issued past the input
gate, which the theorems express as independence from `llm_response`). -/
def verify_document (llm_response : Option LLMReply) (document_text : Option Str)
    (confidence_threshold : ℤ) : Except Str VerifyResult :=
  match document_text with
  | none => .ok ⟨true, some shortInputReason, 10, false⟩
  | some t =>
      if (pyStrip t).length < 25 then
        .ok ⟨true, some shortInputReason, 10, false⟩
      else
        match llm_response with
        | some r =>
            match r.is_garbage, r.confidence with
            | some g, some c =>
                if confidence_threshold ≤ c then
                  .ok ⟨g, r.reason, c, !g⟩
                else
                  match r.reason with
                  | some reas => .ok ⟨g, some (reas ++ lowConfSuffix), c, false⟩
                  | none => .error "KeyError: reason".data
            | _, _ => .ok ⟨true, some invalidRespReason, 0, false⟩
        | none => .ok ⟨true, some invalidRespReason, 0, false⟩

/-!
A concrete environment used to instantiate theorems on concrete inputs.
The external tokenizer `word_tokenize` is instantiated with a plain
whitespace splitter (which agrees with NLTK on the simple inputs used
below) and the detector with a function that reports English for any
non-blank text; `STOPWORDS` is the built-in fallback table of the source
(its English entry, the only one the concrete inputs touch, plus the
other nine keys of the fallback dict).
-/

/-- Whitespace tokenizer instantiating the `word_tokenize` black box. -/
def wsTokenize (s : Str) : List Str :=
  (s.splitOnP Char.isWhitespace).filter (fun t => !t.isEmpty)

/-- Convert a list of Lean string literals to `Str` values. -/
def swList (l : List String) : List Str := l.map String.data

/-- The built-in fallback `STOPWORDS` dictionary of the source. -/
def DEFAULT_STOPWORDS : List (Str × List Str) :=
  [ ("en".data, swList ["the","and","is","in","it","to","of","a","that","for","on","with","as","was","are","at","by","this","from","or"])
  , ("es".data, swList ["de","la","que","el","en","y","a","los","se","del","las","por","un","para","con","no","una","su","al","lo"])
  , ("fr".data, swList ["de","la","et","le","à","les","des","en","du","un","que","pour","dans","par","est","sur","qui","se","au"])
  , ("de".data, swList ["und","der","die","das","in","zu","den","von","mit","nicht","ist","des","dem","ein","eine","als","auch","auf"])
  , ("zh".data, swList ["的","了","在","是","我","有","和","就","不","人","都","一","一个","上","也","很","到","他","她"])
  , ("ar".data, swList ["في","من","على","و","إلى","عن","أن","مع","كان","ما","لا","هذا","هذه","الذي","ذلك","كل","كما","هو"])
  , ("ru".data, swList ["и","в","не","на","что","он","с","как","а","его","по","но","за","из","к","она","они","ее"])
  , ("hi".data, swList ["और","के","है","से","में","का","कि","यह","को","पर","वह","की","जो","कर","हुआ","वे","इस"])
  , ("pt".data, swList ["de","que","e","o","da","em","um","para","com","não","uma","os","no","se","na","por","mais","as","dos"])
  , ("it".data, swList ["di","e","che","in","a","per","è","con","non","una","il","un","ma","le","si","dei","della","più","come"]) ]

/-- Concrete environment for witnesses and counterexamples. -/
def EnvW : Env where
  jieba_cut := fun _ => []
  fugashi_tagger := fun _ => []
  okt_morphs := fun _ => []
  word_tokenize := wsTokenize
  detect := fun s => if (pyStrip s).isEmpty then none else some "en".data
  STOPWORDS := DEFAULT_STOPWORDS

/-!
Helper lemmas: bounds for the rounding function, projection lemmas for
`compute_stats`, and the individual rules of `is_garbage`.
-/

/-- The rounded value is the floor or the floor plus one. -/
lemma roundHalfEven_eq_floor_or_succ (q : ℚ) :
    roundHalfEven q = ⌊q⌋ ∨ roundHalfEven q = ⌊q⌋ + 1 := by
  unfold roundHalfEven
  split_ifs <;> simp

/-- Rounding half-to-even never goes below zero on nonnegative input. -/
lemma roundHalfEven_nonneg (q : ℚ) (h : 0 ≤ q) : 0 ≤ roundHalfEven q := by
  have hf : (0 : ℤ) ≤ ⌊q⌋ := Int.floor_nonneg.mpr h
  rcases roundHalfEven_eq_floor_or_succ q with h1 | h1 <;> omega

/-- Rounding half-to-even never exceeds an integer upper bound. -/
lemma roundHalfEven_le (q : ℚ) (n : ℤ) (h : q ≤ (n : ℚ)) : roundHalfEven q ≤ n := by
  have hf : ⌊q⌋ ≤ n := by
    have := Int.floor_le_floor h
    simpa using this
  have hsucc : (⌊q⌋ : ℚ) < q → ⌊q⌋ + 1 ≤ n := by
    intro hq
    have h1 : (⌊q⌋ : ℚ) < (n : ℚ) := lt_of_lt_of_le hq h
    have h2 : ⌊q⌋ < n := by exact_mod_cast h1
    omega
  unfold roundHalfEven
  split_ifs with h1 h2
  · exact hf
  · exact hsucc (by linarith)
  · exact hf
  · exact hsucc (by
      have hle : (1:ℚ)/2 ≤ q - (⌊q⌋ : ℚ) := not_lt.mp h1
      linarith)

/-- Nonnegativity transfers through `pyRound2`. -/
lemma pyRound2_nonneg (q : ℚ) (h : 0 ≤ q) : 0 ≤ pyRound2 q := by
  unfold pyRound2
  have h1 : (0 : ℤ) ≤ roundHalfEven (q * 100) := roundHalfEven_nonneg _ (by positivity)
  have h2 : (0 : ℚ) ≤ (roundHalfEven (q * 100) : ℚ) := by exact_mod_cast h1
  positivity

/-- An upper bound of one transfers through `pyRound2`. -/
lemma pyRound2_le_one (q : ℚ) (h : q ≤ 1) : pyRound2 q ≤ 1 := by
  unfold pyRound2
  have h1 : roundHalfEven (q * 100) ≤ (100 : ℤ) := by
    apply roundHalfEven_le
    push_cast
    linarith
  rw [div_le_one (by norm_num)]
  exact_mod_cast h1

/-- Rounding zero gives zero. -/
lemma pyRound2_zero : pyRound2 0 = 0 := by
  unfold pyRound2 roundHalfEven
  norm_num

/-- The value of `pyRound2` is an integer multiple of `1/100`. -/
lemma pyRound2_mul_hundred_int (q : ℚ) : ∃ n : ℤ, pyRound2 q = (n : ℚ) / 100 :=
  ⟨roundHalfEven (q * 100), rfl⟩

/-- The alphabetic word list that `compute_stats` filters out of the
token stream. -/
def nlpWords (E : Env) (text lang : Str) : List Str :=
  (tokenize_text E text lang).filter (fun t => pyIsAlphaStr t)

lemma compute_stats_language (E : Env) (text lang : Str) :
    (compute_stats E text lang).language = lang := rfl

lemma compute_stats_words (E : Env) (text lang : Str) :
    (compute_stats E text lang).words = (nlpWords E text lang).length := rfl

lemma compute_stats_alpha_ratio (E : Env) (text lang : Str) :
    (compute_stats E text lang).alpha_ratio =
      pyRound2 (((text.filter Char.isAlpha).length : ℚ) / (max text.length 1 : ℚ)) := rfl

lemma compute_stats_avg_word_len (E : Env) (text lang : Str) :
    (compute_stats E text lang).avg_word_len =
      pyRound2 (if 0 < (nlpWords E text lang).length then
          (((nlpWords E text lang).map List.length).sum : ℚ) / ((nlpWords E text lang).length : ℚ)
        else 0) := rfl

lemma compute_stats_stopword_ratio (E : Env) (text lang : Str) :
    (compute_stats E text lang).stopword_ratio =
      match E.STOPWORDS.lookup lang with
      | some sws =>
          if 0 < (nlpWords E text lang).length then
            some ((((nlpWords E text lang).filter (fun w => sws.contains (pyLower w))).length : ℚ) /
              ((nlpWords E text lang).length : ℚ))
          else none
      | none => none := rfl

/-- Rule 1 of the classifier: trimmed length under five characters. -/
lemma is_garbage_of_short (text : Str) (stats : DocumentStats)
    (h : (pyStrip text).length < 5) : is_garbage text stats = true := by
  unfold is_garbage
  rw [if_pos h]

/-- Rule 2 of the classifier: the short-but-dense exemption, reachable
once rule 1 has not fired. -/
lemma is_garbage_of_exempt (text : Str) (stats : DocumentStats)
    (h5 : 5 ≤ (pyStrip text).length) (hw : stats.words < 3)
    (ha : (7:ℚ)/10 < stats.alpha_ratio) : is_garbage text stats = false := by
  unfold is_garbage
  rw [if_neg (by omega), if_pos ⟨hw, ha⟩]

/-- Rule 3 of the classifier: stopword scarcity, reachable once rules 1
and 2 have not fired. -/
lemma is_garbage_of_scarce (text : Str) (stats : DocumentStats)
    (h5 : 5 ≤ (pyStrip text).length)
    (hex : ¬(stats.words < 3 ∧ (7:ℚ)/10 < stats.alpha_ratio))
    (r : ℚ) (hr : stats.stopword_ratio = some r) (hlt : r < (5:ℚ)/100) :
    is_garbage text stats = true := by
  unfold is_garbage
  rw [if_neg (by omega), if_neg hex]
  simp [hr, hlt]

/-!
Claim theorems.  Concrete inputs used by witnesses and counterexamples.
-/

/-- Two-character input: trips rule 1 while satisfying the exemption's
statistics. -/
def hiText : Str := "Hi".data

/-- Five-character single word: minimum length at which the exemption is
reachable. -/
def helloText : Str := "Hello".data

/-- Three gibberish words with no stopwords. -/
def gibberishText : Str := "qwert zxcvb qqqqq".data

/-- Three alphanumeric tokens, none fully alphabetic, alpha ratio `0.53`. -/
def mixedText : Str := "abc12 def34 ghi56".data

/-- Digits only: no alphabetic token at all. -/
def digitsText : Str := "12345 678".data

/-- A document long enough to pass the 25-character input gate of
`verify_document`. -/
def docText : Str := "This is a sufficiently long document text.".data

/-- C3: for every input text whose trimmed length is less than 5
characters, `sanity_check` returns `garbage = true` on both paths,
whether language detection fails or succeeds, regardless of language or
content. -/
theorem short_text_always_garbage (E : Env) (text : Str)
    (h : (pyStrip text).length < 5) : (sanity_check E text).garbage = true := by
  unfold sanity_check
  cases hd : E.detect text with
  | none => rfl
  | some lang =>
      by_cases he : lang.isEmpty
      · simp [he]
      · simp only [he, Bool.false_eq_true, if_false]
        simpa using is_garbage_of_short text (compute_stats E text lang) h

/-- Witness for C3 at the concrete two-character input. -/
theorem short_text_always_garbage_witness :
    (sanity_check EnvW hiText).garbage = true :=
  short_text_always_garbage EnvW hiText (by decide)

/-- C4: when language detection fails (returns `None` or raises, both
absorbed into `detect = none` by the bare `except:`), `sanity_check`
returns `garbage = true` with the bare `{"language": None}` stats
payload — no tokens or further statistics are computed and no exception
escapes (the embedding is a total function). -/
theorem detection_failure_verdict (E : Env) (text : Str)
    (h : E.detect text = none) :
    sanity_check E text = { garbage := true, stats := SanityStats.langFail } ∧
    (sanity_check E text).stats.language = none := by
  unfold sanity_check
  rw [h]
  exact ⟨rfl, rfl⟩

/-- Witness for C4 at a whitespace-only input, on which the concrete
detector fails. -/
theorem detection_failure_verdict_witness :
    sanity_check EnvW "   ".data = { garbage := true, stats := SanityStats.langFail } ∧
    (sanity_check EnvW "   ".data).stats.language = none :=
  detection_failure_verdict EnvW "   ".data (by decide)

/-- C1 (counterexample): the two-character text `"Hi"` has `words = 1 <
3` and `alpha_ratio = 1.0 > 0.7`, yet the classifier returns `true`,
because the too-short rule fires before the exemption.  This refutes the
claim as stated (which quantifies over every text with those
statistics). -/
theorem short_dense_text_flagged_by_min_length_rule :
    (compute_stats EnvW hiText "en".data).words < 3 ∧
    (7:ℚ)/10 < (compute_stats EnvW hiText "en".data).alpha_ratio ∧
    is_garbage hiText (compute_stats EnvW hiText "en".data) = true := by
  refine ⟨by decide, ?_, by decide⟩
  have h : (compute_stats EnvW hiText "en".data).alpha_ratio =
      pyRound2 (((2:ℕ):ℚ) / (max ((2:ℕ):ℚ) 1)) := rfl
  rw [h]
  norm_num [pyRound2, roundHalfEven, max_def]

/-- C1 (amended): for every input text whose trimmed length is at least
5 and whose computed statistics satisfy `words < 3` and `alpha_ratio >
0.7`, the classifier returns `garbage = false`, even if the stopword
ratio would otherwise indicate garbage — the exemption takes priority
over the stopword-scarcity rule. -/
theorem short_dense_exemption_holds_at_min_length (E : Env) (text lang : Str)
    (h5 : 5 ≤ (pyStrip text).length)
    (hw : (compute_stats E text lang).words < 3)
    (ha : (7:ℚ)/10 < (compute_stats E text lang).alpha_ratio) :
    is_garbage text (compute_stats E text lang) = false :=
  is_garbage_of_exempt text (compute_stats E text lang) h5 hw ha

/-- Witness for amended C1: `"Hello"` (five characters, one word, alpha
ratio `1.0`, stopword ratio `0`) is not flagged. -/
theorem short_dense_exemption_holds_at_min_length_witness :
    is_garbage helloText (compute_stats EnvW helloText "en".data) = false := by
  apply short_dense_exemption_holds_at_min_length EnvW helloText "en".data (by decide) (by decide)
  have h : (compute_stats EnvW helloText "en".data).alpha_ratio =
      pyRound2 (((5:ℕ):ℚ) / (max ((5:ℕ):ℚ) 1)) := rfl
  rw [h]
  norm_num [pyRound2, roundHalfEven, max_def]

/-- C2 (counterexample): `"Hello"` is in a language with a stopword
entry, has `num_words = 1 > 0` and a stopword ratio of `0 < 0.05`, yet
the classifier returns `false`: the short-but-dense exemption fires
before the stopword-scarcity rule.  This refutes the claim as stated. -/
theorem stopword_scarce_text_saved_by_exemption :
    (EnvW.STOPWORDS.lookup "en".data).isSome = true ∧
    0 < (compute_stats EnvW helloText "en".data).words ∧
    (compute_stats EnvW helloText "en".data).stopword_ratio = some 0 ∧
    (0:ℚ) < (5:ℚ)/100 ∧
    is_garbage helloText (compute_stats EnvW helloText "en".data) = false := by
  refine ⟨by decide, by decide, ?_, by norm_num, ?_⟩
  · have h : (compute_stats EnvW helloText "en".data).stopword_ratio =
        some (((0:ℕ):ℚ) / ((1:ℕ):ℚ)) := rfl
    rw [h]
    norm_num
  · apply is_garbage_of_exempt helloText _ (by decide) (by decide)
    have h : (compute_stats EnvW helloText "en".data).alpha_ratio =
        pyRound2 (((5:ℕ):ℚ) / (max ((5:ℕ):ℚ) 1)) := rfl
    rw [h]
    norm_num [pyRound2, roundHalfEven, max_def]

/-- C2 (amended): for every input text in a language with a
stopword-table entry and `num_words > 0` whose stopword ratio is below
`0.05`, the classifier returns `garbage = true`, provided the
short-but-dense exemption (`words < 3` and `alpha_ratio > 0.7`) does not
apply; texts shorter than five trimmed characters are flagged by rule 1,
which also returns `true`. -/
theorem stopword_scarcity_forces_garbage_unless_exempt (E : Env) (text lang : Str)
    (hsw : (E.STOPWORDS.lookup lang).isSome = true)
    (hw : 0 < (compute_stats E text lang).words)
    (hlow : ∀ r : ℚ, (compute_stats E text lang).stopword_ratio = some r → r < (5:ℚ)/100)
    (hex : ¬((compute_stats E text lang).words < 3 ∧
      (7:ℚ)/10 < (compute_stats E text lang).alpha_ratio)) :
    is_garbage text (compute_stats E text lang) = true := by
  by_cases h5 : (pyStrip text).length < 5
  · exact is_garbage_of_short text _ h5
  · obtain ⟨sws, hL⟩ := Option.isSome_iff_exists.mp hsw
    have hw' : 0 < (nlpWords E text lang).length := by
      rw [compute_stats_words] at hw
      exact hw
    have hr : (compute_stats E text lang).stopword_ratio =
        some ((((nlpWords E text lang).filter (fun w => sws.contains (pyLower w))).length : ℚ) /
          ((nlpWords E text lang).length : ℚ)) := by
      rw [compute_stats_stopword_ratio]
      simp only [hL]
      rw [if_pos hw']
    exact is_garbage_of_scarce text _ (by omega) hex _ hr (hlow _ hr)

/-- Witness for amended C2: three gibberish words, stopword ratio `0`,
flagged as garbage. -/
theorem stopword_scarcity_forces_garbage_unless_exempt_witness :
    is_garbage gibberishText (compute_stats EnvW gibberishText "en".data) = true := by
  refine stopword_scarcity_forces_garbage_unless_exempt EnvW gibberishText "en".data
    (by decide) (by decide) ?_ ?_
  · intro r hr
    have h : (compute_stats EnvW gibberishText "en".data).stopword_ratio =
        some (((0:ℕ):ℚ) / ((3:ℕ):ℚ)) := rfl
    rw [h, Option.some_inj] at hr
    rw [← hr]
    norm_num
  · rintro ⟨hlt, -⟩
    have h3 : (compute_stats EnvW gibberishText "en".data).words = 3 := by decide
    omega

/-- C5: `compute_stats` leaves `stopword_ratio` undefined (`none`,
distinguishable from `0`) exactly when the language has no entry in the
stopword table or `num_words = 0`; when defined it equals the fraction
of case-folded alphabetic words appearing in that language's stopword
set and lies in `[0, 1]`. -/
theorem stopword_ratio_defined_iff (E : Env) (text lang : Str) :
    ((compute_stats E text lang).stopword_ratio = none ↔
      E.STOPWORDS.lookup lang = none ∨ (compute_stats E text lang).words = 0)
    ∧ (∀ r : ℚ, (compute_stats E text lang).stopword_ratio = some r →
        (0 ≤ r ∧ r ≤ 1) ∧
        ∃ sws, E.STOPWORDS.lookup lang = some sws ∧
          r = (((nlpWords E text lang).filter (fun w => sws.contains (pyLower w))).length : ℚ) /
              ((compute_stats E text lang).words : ℚ)) := by
  rw [compute_stats_stopword_ratio, compute_stats_words]
  cases hL : E.STOPWORDS.lookup lang with
  | none =>
      dsimp only
      constructor
      · exact iff_of_true rfl (Or.inl rfl)
      · intro r hr
        exact Option.noConfusion hr
  | some sws =>
      dsimp only
      by_cases hn : 0 < (nlpWords E text lang).length
      · constructor
        · rw [if_pos hn]
          apply iff_of_false
          · simp
          · rintro (h | h)
            · exact Option.noConfusion h
            · omega
        · intro r hr
          rw [if_pos hn, Option.some_inj] at hr
          constructor
          · constructor
            · rw [← hr]
              positivity
            · rw [← hr]
              apply div_le_one_of_le₀
              · exact_mod_cast List.length_filter_le _ _
              · positivity
          · exact ⟨sws, rfl, hr.symm⟩
      · constructor
        · rw [if_neg hn]
          exact iff_of_true rfl (Or.inr (by omega))
        · intro r hr
          rw [if_neg hn] at hr
          exact Option.noConfusion hr

/-- Witness for C5: a language code absent from the stopword table
yields an undefined ratio. -/
theorem stopword_ratio_defined_iff_witness :
    (compute_stats EnvW helloText "xx".data).stopword_ratio = none :=
  (stopword_ratio_defined_iff EnvW helloText "xx".data).1.mpr (Or.inl (by decide))

/-- C6: when the earlier rules do not decide (trimmed length at least 5,
no short-but-dense exemption, stopword ratio undefined or at least
`0.05`), the classifier returns `true` exactly when `alpha_ratio <
0.5`. -/
theorem residual_alpha_ratio_rule (text : Str) (stats : DocumentStats)
    (h5 : 5 ≤ (pyStrip text).length)
    (hex : ¬(stats.words < 3 ∧ (7:ℚ)/10 < stats.alpha_ratio))
    (hsr : ∀ r : ℚ, stats.stopword_ratio = some r → (5:ℚ)/100 ≤ r) :
    is_garbage text stats = decide (stats.alpha_ratio < (1:ℚ)/2) := by
  unfold is_garbage
  rw [if_neg (by omega), if_neg hex]
  have hcond : (match stats.stopword_ratio with
      | some r => decide (r < (5:ℚ)/100)
      | none => false) = false := by
    cases hc : stats.stopword_ratio with
    | none => rfl
    | some r => simpa using not_lt.mpr (hsr r hc)
  rw [hcond]
  by_cases h : stats.alpha_ratio < (1:ℚ)/2 <;> simp [h]

/-- Witness for C6: three alphanumeric tokens (no alphabetic word, no
stopword data, alpha ratio `0.53`) fall through to rule 4 and pass. -/
theorem residual_alpha_ratio_rule_witness :
    is_garbage mixedText (compute_stats EnvW mixedText "xx".data) = false := by
  have hval : (compute_stats EnvW mixedText "xx".data).alpha_ratio = (53:ℚ)/100 := by
    have halpha : (compute_stats EnvW mixedText "xx".data).alpha_ratio =
        pyRound2 (((9:ℕ):ℚ) / (max ((17:ℕ):ℚ) 1)) := rfl
    rw [halpha]
    norm_num [pyRound2, roundHalfEven, max_def]
  have h := residual_alpha_ratio_rule mixedText (compute_stats EnvW mixedText "xx".data)
    (by decide)
    (by rintro ⟨-, ha⟩
        rw [hval] at ha
        norm_num at ha)
    (by intro r hr
        have hnone : (compute_stats EnvW mixedText "xx".data).stopword_ratio = none := by decide
        rw [hnone] at hr
        exact absurd hr (by simp))
  rw [h, hval]
  simp only [decide_eq_false_iff_not]
  norm_num

/-- C7: in every `DocumentStats` produced by `compute_stats`,
`alpha_ratio` and `avg_word_len` are integer multiples of `1/100` (the
two-decimal rounding), `alpha_ratio` lies in `[0, 1]` (the division is
guarded by `max(len(text), 1)`), and `avg_word_len` is nonnegative and
zero when there is no alphabetic word. -/
theorem stats_rounded_and_bounded (E : Env) (text lang : Str) :
    (∃ n : ℤ, (compute_stats E text lang).alpha_ratio = (n : ℚ) / 100) ∧
    (∃ m : ℤ, (compute_stats E text lang).avg_word_len = (m : ℚ) / 100) ∧
    0 ≤ (compute_stats E text lang).alpha_ratio ∧
    (compute_stats E text lang).alpha_ratio ≤ 1 ∧
    0 ≤ (compute_stats E text lang).avg_word_len ∧
    ((compute_stats E text lang).words = 0 → (compute_stats E text lang).avg_word_len = 0) := by
  refine ⟨?_, ?_, ?_, ?_, ?_, ?_⟩
  · rw [compute_stats_alpha_ratio]
    exact pyRound2_mul_hundred_int _
  · rw [compute_stats_avg_word_len]
    exact pyRound2_mul_hundred_int _
  · rw [compute_stats_alpha_ratio]
    apply pyRound2_nonneg
    positivity
  · rw [compute_stats_alpha_ratio]
    apply pyRound2_le_one
    apply div_le_one_of_le₀
    · calc ((text.filter Char.isAlpha).length : ℚ)
          ≤ (text.length : ℚ) := by exact_mod_cast List.length_filter_le _ _
        _ ≤ max (text.length : ℚ) 1 := le_max_left _ _
    · exact le_trans zero_le_one (le_max_right _ _)
  · rw [compute_stats_avg_word_len]
    apply pyRound2_nonneg
    split_ifs with h
    · positivity
    · exact le_refl 0
  · intro h0
    rw [compute_stats_words] at h0
    rw [compute_stats_avg_word_len, h0]
    simp [pyRound2_zero]

/-- Witness for C7: an input with no alphabetic token has average word
length zero. -/
theorem stats_rounded_and_bounded_witness :
    (compute_stats EnvW digitsText "en".data).avg_word_len = 0 :=
  (stats_rounded_and_bounded EnvW digitsText "en".data).2.2.2.2.2 (by decide)

/-- C8: `sanity_check` is deterministic.  Two calls are modelled as two
environments; whenever the external black boxes respond identically on
the given input — which the source guarantees for the detector by
setting `DetectorFactory.seed = 0`, and which holds for the pure
tokenizers — the two calls return identical verdicts and statistics:
everything else `sanity_check` computes is a pure function of the
input. -/
theorem sanity_check_deterministic (E E' : Env) (text : Str)
    (hdet : E.detect text = E'.detect text)
    (htok : ∀ lang : Str, tokenize_text E text lang = tokenize_text E' text lang)
    (hsw : E.STOPWORDS = E'.STOPWORDS) :
    sanity_check E text = sanity_check E' text := by
  have hstats : ∀ lang : Str, compute_stats E text lang = compute_stats E' text lang := by
    intro lang
    unfold compute_stats
    rw [htok, hsw]
  unfold sanity_check
  rw [hdet]
  cases E'.detect text with
  | none => rfl
  | some lang =>
      by_cases he : lang.isEmpty <;> simp [he, hstats]

/-- A second concrete environment whose detector differs from `EnvW` as
a function (it fails on every input other than `"Hello"`) but agrees
with it on `"Hello"`. -/
def EnvW2 : Env :=
  { EnvW with detect := fun s => if s = "Hello".data then some "en".data else none }

/-- Witness for C8: two environments with different detector functions
that agree on the input `"Hello"` produce the identical verdict. -/
theorem sanity_check_deterministic_witness :
    sanity_check EnvW helloText = sanity_check EnvW2 helloText :=
  sanity_check_deterministic EnvW EnvW2 helloText (by decide) (fun _ => rfl) rfl

/-- C9 (counterexample): a reply carrying `is_garbage` and `confidence`
(hence well-formed in the claim's sense) but no `reason` key, with
confidence `3` below the threshold `7`, does not yield
`passed_verification = false`: the statement
`result["reason"] += " (Rejected due to low confidence score.)"` raises
`KeyError`, which `verify_document` does not catch. -/
theorem low_confidence_missing_reason_raises :
    verify_document (some ⟨some false, none, some 3⟩) (some docText) 7 =
      Except.error "KeyError: reason".data := by
  rfl

/-- C9 (amended): past the input gate, a missing or malformed model
response — `None`, or a reply lacking `is_garbage` or `confidence` — is
turned into the error verdict `is_garbage = true`, `confidence = 0`,
`passed_verification = false`; and a well-formed reply that also carries
a `reason` field, with confidence below the threshold, is returned with
`passed_verification = false` (and the rejection note appended to the
reason).  A well-formed low-confidence reply without `reason` instead
raises `KeyError`. -/
theorem llm_postprocessing_verdicts (llm : Option LLMReply) (t : Str) (th : ℤ)
    (hlen : 25 ≤ (pyStrip t).length) :
    ((llm = none ∨ ∃ r, llm = some r ∧ (r.is_garbage = none ∨ r.confidence = none)) →
      verify_document llm (some t) th =
        Except.ok ⟨true, some invalidRespReason, 0, false⟩)
    ∧ (∀ (r : LLMReply) (g : Bool) (c : ℤ) (reas : Str),
        llm = some r → r.is_garbage = some g → r.confidence = some c →
        r.reason = some reas → c < th →
        verify_document llm (some t) th =
          Except.ok ⟨g, some (reas ++ lowConfSuffix), c, false⟩) := by
  constructor
  · intro h
    unfold verify_document
    dsimp only
    rw [if_neg (by omega)]
    rcases h with rfl | ⟨r, rfl, hf⟩
    · rfl
    · obtain ⟨gf, rea, cf⟩ := r
      rcases hf with hf | hf
      · subst hf
        cases cf <;> rfl
      · subst hf
        cases gf <;> rfl
  · intro r g c reas hllm hg hc hreas hlt
    subst hllm
    obtain ⟨gf, rea, cf⟩ := r
    subst hg
    subst hc
    subst hreas
    unfold verify_document
    dsimp only
    rw [if_neg (by omega), if_neg (by omega)]

/-- Witness for amended C9: a complete reply with confidence `3` under
threshold `7` comes back with `passed_verification = false` and the
rejection note appended. -/
theorem llm_postprocessing_verdicts_witness :
    verify_document (some ⟨some false, some "ok".data, some 3⟩) (some docText) 7 =
      Except.ok ⟨false, some ("ok".data ++ lowConfSuffix), 3, false⟩ :=
  (llm_postprocessing_verdicts (some ⟨some false, some "ok".data, some 3⟩) docText 7
    (by decide)).2 _ false 3 "ok".data rfl rfl rfl rfl (by decide)

/-- C10: any input that is `None`, not a string, or shorter than 25
trimmed characters is rejected by the input gate of `verify_document`
with `is_garbage = true`, `confidence = 10`, `passed_verification =
false` — for every possible model reply, i.e. without consulting the
model at all. -/
theorem input_gate_skips_model (llm : Option LLMReply) (ct : ℤ) (doc : Option Str)
    (h : doc = none ∨ ∃ t : Str, doc = some t ∧ (pyStrip t).length < 25) :
    verify_document llm doc ct = Except.ok ⟨true, some shortInputReason, 10, false⟩ := by
  rcases h with rfl | ⟨t, rfl, ht⟩
  · rfl
  · unfold verify_document
    dsimp only
    rw [if_pos ht]

/-- Witness for C10: a two-character document is rejected by the gate
(shown here with no model reply at all). -/
theorem input_gate_skips_model_witness :
    verify_document none (some "hi".data) 7 = Except.ok ⟨true, some shortInputReason, 10, false⟩ :=
  input_gate_skips_model none 7 (some "hi".data) (Or.inr ⟨"hi".data, rfl, by decide⟩)
